import Mathlib

/-!
Verification of the GeckoRave payment-gateway checkout widget
(src/src/PaymentGateway.tsx) against its natural-language specification.

The TypeScript source is shallowly embedded below: pure helpers become Lean
functions on strings and lists, the widget's React state becomes an explicit
record with the event handlers as state-transition functions, JavaScript
values appearing in request payloads become an inductive type `JVal` whose
objects carry a numeric identity tag (standing for JS reference identity),
and the process-wide initialization request cache becomes an association
list threaded through explicit operations.  Machine details that matter are
kept: JS truthiness of strings, the behaviour of `Number(c)` on one-character
strings (whitespace coerces to 0), and the short-circuit order of the
response-field fallback chains.
-/

/- ===== Section 1: character and string helpers ===== -/

/-- Code points that JavaScript `ToNumber` treats as whitespace
(WhiteSpace plus LineTerminator productions); a one-character string made
of one of these converts to `0`, not `NaN`. -/
def jsWhitespace (c : Char) : Bool :=
  c.toNat ∈ [9, 10, 11, 12, 13, 32, 160, 0x1680, 0x2000, 0x2001, 0x2002,
    0x2003, 0x2004, 0x2005, 0x2006, 0x2007, 0x2008, 0x2009, 0x200A,
    0x2028, 0x2029, 0x202F, 0x205F, 0x3000, 0xFEFF]

/-- JavaScript `Number(cardNumber[i])` for a single character: an ASCII digit
yields its value, a whitespace character yields `0`, anything else `NaN`
(modelled as `none`). -/
def charToNum (c : Char) : Option Nat :=
  if c.isDigit then some (c.toNat - 48)
  else if jsWhitespace c then some 0
  else none

/-- The numeric value `Number(c)` coerces a convertible character to. -/
def jsCharVal (c : Char) : Nat := (charToNum c).getD 0

/-- Value of an ASCII digit character. -/
def digitVal (c : Char) : Nat := c.toNat - 48

/-- Lower-casing of one character, as `String.prototype.toLowerCase` acts on
ASCII (the only characters the widget compares). -/
def lcChar (c : Char) : Char :=
  if 'A' ≤ c ∧ c ≤ 'Z' then Char.ofNat (c.toNat + 32) else c

/-- ASCII lower-casing of a string (JS `toLowerCase`). -/
def lcString (s : String) : String := String.mk (s.data.map lcChar)

/-- JS truthiness of an optional string value: `undefined`/`null` and the
empty string are falsy, every other string is truthy. -/
def jsTruthy (o : Option String) : Bool :=
  match o with
  | none => false
  | some s => s ≠ ""

/-- JS `a || b` on optional string values: keep `a` when truthy, else `b`. -/
def jsOrO (a b : Option String) : Option String :=
  if jsTruthy a then a else b

/-- JS `a || d` where `d` is a (string) default: used for message fallbacks
such as `plain?.message || "..."`. -/
def jsOrD (a : Option String) (d : String) : String :=
  match a with
  | some s => if s = "" then d else s
  | none => d

/-- JS `s || d` on two plain strings. -/
def jsOrS (s d : String) : String := if s = "" then d else s

/- ===== Section 2: Luhn check and card-brand detection ===== -/

/-- One doubling step of the Luhn algorithm: `value *= 2; if (value > 9)
value -= 9` from `isValidLuhn` (PaymentGateway.tsx lines 159–163). -/
def doubledVal (d : Nat) : Nat := if 9 < 2 * d then 2 * d - 9 else 2 * d

/-- The loop of `isValidLuhn` (lines 156–166), iterating over the characters
from the rightmost: `cs` is the reversed character list, `dbl` the
`shouldDouble` flag and `sum` the accumulator.  A character `Number` turns
into `NaN` aborts with `false`. -/
def luhnGo : List Char → Bool → Nat → Bool
  | [], _, sum => sum % 10 == 0
  | c :: rest, dbl, sum =>
    match charToNum c with
    | none => false
    | some d => luhnGo rest (!dbl) (sum + (if dbl then doubledVal d else d))

/-- Embeds `isValidLuhn` (PaymentGateway.tsx lines 153–168). -/
def isValidLuhn (s : String) : Bool := luhnGo s.data.reverse false 0

/-- Specification-side Luhn sum on digit values listed rightmost-first:
every second value counting from the rightmost is doubled (minus nine when
the double exceeds nine). -/
def luhnSpecGo : List Nat → Bool → Nat
  | [], _ => 0
  | d :: rest, dbl => (if dbl then doubledVal d else d) + luhnSpecGo rest (!dbl)

/-- Specification-side Luhn sum of a digit-value list given leftmost-first. -/
def luhnSpecSum (ds : List Nat) : Nat := luhnSpecGo ds.reverse false

/-- Regex `^4` of `detectCardType` (line 135). -/
def visaTest : List Char → Bool
  | '4' :: _ => true
  | _ => false

/-- Tail of the mastercard regex after a leading `2`:
`2[2-9]|[3-6]\d|7[01]|720` (line 138). -/
def mcTail : List Char → Bool
  | [] => false
  | c :: rest =>
    if c = '2' then
      match rest with
      | d :: _ => '2' ≤ d && d ≤ '9'
      | [] => false
    else if '3' ≤ c && c ≤ '6' then
      match rest with
      | d :: _ => d.isDigit
      | [] => false
    else if c = '7' then
      match rest with
      | d :: rest2 =>
        d = '0' || d = '1' ||
          (d = '2' && (match rest2 with | e :: _ => e = '0' | [] => false))
      | [] => false
    else false

/-- Regex `^(5[1-5]|2(2[2-9]|[3-6]\d|7[01]|720))` (line 138). -/
def mcTest : List Char → Bool
  | [] => false
  | c :: rest =>
    if c = '5' then
      match rest with
      | d :: _ => '1' ≤ d && d ≤ '5'
      | [] => false
    else if c = '2' then mcTail rest
    else false

/-- Regex `^3[47]` (line 141). -/
def amexTest : List Char → Bool
  | '3' :: c :: _ => c = '4' || c = '7'
  | _ => false

/-- Regex `^(6011|65|64[4-9]|622)` (line 144). -/
def discoverTest : List Char → Bool
  | '6' :: rest =>
    (match rest with
     | '0' :: '1' :: '1' :: _ => true
     | '5' :: _ => true
     | '4' :: c :: _ => '4' ≤ c && c ≤ '9'
     | '2' :: '2' :: _ => true
     | _ => false)
  | _ => false

/-- Regex `^(5060|5061|5078|5079|6500)` (line 147). -/
def verveTest : List Char → Bool
  | '5' :: '0' :: c :: d :: _ =>
    (c = '6' && (d = '0' || d = '1')) || (c = '7' && (d = '8' || d = '9'))
  | '6' :: '5' :: '0' :: '0' :: _ => true
  | _ => false

/-- Result record of `detectCardType`: brand label and accepted digit
counts. -/
structure CardMeta where
  label : String
  lengths : List Nat
deriving DecidableEq, Repr

/-- Embeds `detectCardType` (PaymentGateway.tsx lines 134–151): the prefix
rules are tried in source order, first match wins. -/
def detectCardType (cardNumber : String) : CardMeta :=
  if visaTest cardNumber.data then ⟨"Visa", [13, 16, 19]⟩
  else if mcTest cardNumber.data then ⟨"Mastercard", [16]⟩
  else if amexTest cardNumber.data then ⟨"American Express", [15]⟩
  else if discoverTest cardNumber.data then ⟨"Discover", [16, 19]⟩
  else if verveTest cardNumber.data then ⟨"Verve", [16, 18, 19]⟩
  else ⟨"Unknown", [12, 13, 14, 15, 16, 17, 18, 19]⟩

/-- Regex `^\d{12,19}$` applied to the card digit string (line 419). -/
def digits12to19 (s : String) : Bool :=
  (12 ≤ s.data.length && s.data.length ≤ 19) && s.data.all Char.isDigit

/-- Embeds the `cardNumberValid` computation (PaymentGateway.tsx line 419):
`/^\d{12,19}$/.test(cardDigits) && cardMeta.lengths.includes(cardDigits.length)
&& isValidLuhn(cardDigits)`, applied to the whitespace-stripped digits. -/
def cardNumberValid (cardDigits : String) : Bool :=
  digits12to19 cardDigits &&
    (detectCardType cardDigits).lengths.contains cardDigits.data.length &&
    isValidLuhn cardDigits

/- ===== Section 3: JS values and the stable request signature ===== -/

/-- JavaScript values reachable from a request payload.  Non-array objects
carry a numeric identity tag `oid` standing for JS reference identity: two
`jobj` nodes with the same tag denote the same object reference (the
traversal of `stableSerialize` marks objects in a `WeakSet`, so identity is
observable).  A fresh object literal is modelled by a tag not used
elsewhere; tag `0` is reserved for objects constructed by the serializer
itself.  Arrays carry no tag because `stableSerialize` never checks arrays
against the `seen` set. -/
inductive JVal where
  | jnull
  | jundef
  | jfun
  | jsym
  | jbool (b : Bool)
  | jnum (n : Int)
  | jstr (s : String)
  | jdate (iso : String)
  | jarr (elems : List JVal)
  | jobj (oid : Nat) (fields : List (String × JVal))

mutual
/-- Structural size of a JS value, used as recursion fuel below. -/
def szV : JVal → Nat
  | .jarr es => szL es + 1
  | .jobj _ fs => szF fs + 1
  | _ => 1

/-- Structural size of a list of JS values. -/
def szL : List JVal → Nat
  | [] => 0
  | v :: vs => szV v + szL vs + 1

/-- Structural size of an object field list. -/
def szF : List (String × JVal) → Nat
  | [] => 0
  | (_, v) :: rest => szV v + szF rest + 1
end

/-- Code-unit comparison of character lists: the order JavaScript's default
`Array.prototype.sort` comparator puts key strings in. -/
def chLe : List Char → List Char → Bool
  | [], _ => true
  | _ :: _, [] => false
  | a :: as, b :: bs =>
    if a.toNat < b.toNat then true
    else if b.toNat < a.toNat then false
    else chLe as bs

/-- String comparison used for `Object.keys(input).sort()`. -/
def strLeb (a b : String) : Bool := chLe a.data b.data

/-- Insert a field into a key-sorted field list. -/
def insField (p : String × JVal) : List (String × JVal) → List (String × JVal)
  | [] => [p]
  | q :: rest => if strLeb p.1 q.1 then p :: q :: rest else q :: insField p rest

/-- Sort an object's fields by key (insertion sort); models
`Object.keys(input).sort()` followed by reading each key, the keys of a JS
object being unique. -/
def sortFields : List (String × JVal) → List (String × JVal)
  | [] => []
  | p :: rest => insField p (sortFields rest)

/-- Field values dropped by the `reduce` step of `stableSerialize`
(line 62): `undefined`, functions and symbols. -/
def isSkipped : JVal → Bool
  | .jundef => true
  | .jfun => true
  | .jsym => true
  | _ => false

/-- Traverse a list of array elements with the state-threaded normalizer
`f`, as `input.map(normalize)` does (the `seen` set persists across
siblings). -/
def goArr (f : JVal → List Nat → Option (JVal × List Nat)) :
    List JVal → List Nat → Option (List JVal × List Nat)
  | [], s => some ([], s)
  | v :: vs, s =>
    (f v s).bind fun r => (goArr f vs r.2).map fun q => (r.1 :: q.1, q.2)

/-- Traverse a sorted field list with the state-threaded normalizer `f`,
dropping `undefined`/function/symbol values, as the `reduce` over sorted
keys does. -/
def goFields (f : JVal → List Nat → Option (JVal × List Nat)) :
    List (String × JVal) → List Nat → Option (List (String × JVal) × List Nat)
  | [], s => some ([], s)
  | (k, v) :: rest, s =>
    if isSkipped v then goFields f rest s
    else (f v s).bind fun r =>
      (goFields f rest r.2).map fun q => ((k, r.1) :: q.1, q.2)

/-- The `normalize` closure of `stableSerialize` (PaymentGateway.tsx lines
50–68), with explicit fuel (first argument) making the nested recursion
structural, and the `seen` set threaded as a list of object tags:
primitives pass through, dates become their ISO string, arrays are mapped
(never entered into `seen`), and a non-array object already in `seen`
becomes the string `"[Circular]"`; otherwise it is marked and its fields
are read in sorted key order, dropping undefined/function/symbol values.
Fuel `szV v` always suffices (see `normVF_isSome`). -/
def normVF : Nat → JVal → List Nat → Option (JVal × List Nat)
  | 0, _, _ => none
  | n + 1, v, s =>
    match v with
    | .jnull => some (.jnull, s)
    | .jundef => some (.jundef, s)
    | .jfun => some (.jfun, s)
    | .jsym => some (.jsym, s)
    | .jbool b => some (.jbool b, s)
    | .jnum m => some (.jnum m, s)
    | .jstr t => some (.jstr t, s)
    | .jdate iso => some (.jstr iso, s)
    | .jarr es => (goArr (normVF n) es s).map fun r => (.jarr r.1, r.2)
    | .jobj i fs =>
      if i ∈ s then some (.jstr "[Circular]", s)
      else (goFields (normVF n) (sortFields fs) (i :: s)).map
        fun r => (.jobj 0 r.1, r.2)

/-- `normalize(value)` with an empty `seen` set (the fallback branch is
unreachable: fuel `szV v` suffices). -/
def jsNormalize (v : JVal) : JVal :=
  match normVF (szV v) v [] with
  | some r => r.1
  | none => .jnull

/-- Hexadecimal digit character (lower case, as `JSON.stringify` emits). -/
def hexDigit (n : Nat) : Char :=
  if n < 10 then Char.ofNat (48 + n) else Char.ofNat (87 + n)

/-- `JSON.stringify` escaping of a single character inside a string
literal. -/
def escChar (c : Char) : List Char :=
  if c = '"' then ['\\', '"']
  else if c = '\\' then ['\\', '\\']
  else if c = '\n' then ['\\', 'n']
  else if c = '\r' then ['\\', 'r']
  else if c = '\t' then ['\\', 't']
  else if c.toNat = 8 then ['\\', 'b']
  else if c.toNat = 12 then ['\\', 'f']
  else if c.toNat < 32 then
    ['\\', 'u', '0', '0', hexDigit (c.toNat / 16), hexDigit (c.toNat % 16)]
  else [c]

/-- `JSON.stringify` rendering of a string value. -/
def jsonQuote (t : String) : String :=
  String.mk ('"' :: t.data.foldr (fun c acc => escChar c ++ acc) ['"'])

/-- Decimal digits of a natural number, rightmost digit produced last; the
first argument is fuel (`n` itself suffices). -/
def natDigits : Nat → Nat → List Char
  | 0, _ => []
  | fuel + 1, n =>
    if n < 10 then [Char.ofNat (48 + n)]
    else natDigits fuel (n / 10) ++ [Char.ofNat (48 + n % 10)]

/-- Decimal rendering of an integer, as `JSON.stringify` renders number
values that are integral. -/
def intStr (n : Int) : String :=
  match n with
  | .ofNat m => String.mk (natDigits m m)
  | .negSucc m => String.mk ('-' :: natDigits (m + 1) (m + 1))

/-- Comma-separated concatenation. -/
def joinComma : List String → String
  | [] => ""
  | [x] => x
  | x :: rest => x ++ "," ++ joinComma rest

/-- `JSON.stringify` over array elements: an element on which stringify
yields no output (`undefined`, function, symbol) renders as `null`. -/
def goJsonArr (f : JVal → Option String) : List JVal → List String
  | [] => []
  | v :: vs => (f v).getD "null" :: goJsonArr f vs

/-- `JSON.stringify` over object fields: a field whose value yields no
output is dropped. -/
def goJsonObj (f : JVal → Option String) : List (String × JVal) → List String
  | [] => []
  | (k, v) :: rest =>
    match f v with
    | some out => (jsonQuote k ++ ":" ++ out) :: goJsonObj f rest
    | none => goJsonObj f rest

/-- `JSON.stringify` on the (already normalized) value, with fuel; `none`
models JS returning `undefined` (top-level `undefined`/function/symbol).
Fuel `szV v` always suffices. -/
def jsonStrF : Nat → JVal → Option String
  | 0, _ => none
  | n + 1, v =>
    match v with
    | .jnull => some "null"
    | .jundef => none
    | .jfun => none
    | .jsym => none
    | .jbool b => some (cond b "true" "false")
    | .jnum m => some (intStr m)
    | .jstr t => some (jsonQuote t)
    | .jdate iso => some (jsonQuote iso)
    | .jarr es => some ("[" ++ joinComma (goJsonArr (jsonStrF n) es) ++ "]")
    | .jobj _ fs =>
      some ("\x7b" ++ joinComma (goJsonObj (jsonStrF n) fs) ++ "\x7d")

/-- Embeds `stableSerialize` (PaymentGateway.tsx lines 47–75):
`JSON.stringify(normalize(value))`.  `none` stands for the JS call
returning `undefined` (only possible for a top-level value that stringify
drops); the `try/catch` never fires on representable values. -/
def stableSerialize (v : JVal) : Option String :=
  jsonStrF (szV (jsNormalize v)) (jsNormalize v)

/-- The request-signature key built by `initPayment` (PaymentGateway.tsx
lines 361–366): `stableSerialize` of a fresh object literal with fields
`baseURL`, `path`, `publicKey`, `payload` in that insertion order.  The
wrapper object is a fresh literal, so its tag (0) must not occur inside
`payload`. -/
def sign (baseURL path publicKey : String) (payload : JVal) : Option String :=
  stableSerialize (.jobj 0
    [("baseURL", .jstr baseURL), ("path", .jstr path),
     ("publicKey", .jstr publicKey), ("payload", payload)])

/-- Map a function over the field values of an object field list. -/
def mapSnd (f : JVal → JVal) (l : List (String × JVal)) : List (String × JVal) :=
  l.map fun p => (p.1, f p.2)

mutual
/-- Canonicalization capturing "equal up to object key insertion order":
recursively sort every object field list by key, leaving everything else
(including identity tags) unchanged.  Two payloads are equal up to key
insertion order exactly when their canonical forms are equal. -/
def canonV : JVal → JVal
  | .jarr es => .jarr (canonL es)
  | .jobj i fs => .jobj i (sortFields (canonFs fs))
  | v => v

/-- Canonicalize each array element. -/
def canonL : List JVal → List JVal
  | [] => []
  | v :: vs => canonV v :: canonL vs

/-- Canonicalize each field value (keys unchanged). -/
def canonFs : List (String × JVal) → List (String × JVal)
  | [] => []
  | (k, v) :: rest => (k, canonV v) :: canonFs rest
end

mutual
/-- Erase object identity tags: two values with the same erasure are
structurally equal JS values (deep-equal shapes), possibly differing in
reference sharing. -/
def stripV : JVal → JVal
  | .jarr es => .jarr (stripL es)
  | .jobj _ fs => .jobj 0 (stripFs fs)
  | v => v

/-- Erase tags in each array element. -/
def stripL : List JVal → List JVal
  | [] => []
  | v :: vs => stripV v :: stripL vs

/-- Erase tags in each field value. -/
def stripFs : List (String × JVal) → List (String × JVal)
  | [] => []
  | (k, v) :: rest => (k, stripV v) :: stripFs rest
end

/- ===== Section 4: the initialization request deduplication cache ===== -/

/-- Association-list lookup, modelling `Map.prototype.get`. -/
def mget : List (String × Nat) → String → Option Nat
  | [], _ => none
  | (k, v) :: rest, sig => if k = sig then some v else mget rest sig

/-- Association-list insert/replace, modelling `Map.prototype.set`. -/
def mset : List (String × Nat) → String → Nat → List (String × Nat)
  | [], sig, v => [(sig, v)]
  | (k, w) :: rest, sig, v =>
    if k = sig then (sig, v) :: rest else (k, w) :: mset rest sig v

/-- Association-list removal, modelling `Map.prototype.delete`. -/
def mdel : List (String × Nat) → String → List (String × Nat)
  | [], _ => []
  | (k, w) :: rest, sig => if k = sig then rest else (k, w) :: mdel rest sig

/-- State of the process-wide `initRequestCache` (PaymentGateway.tsx line
45) together with bookkeeping that makes network effects observable:
`cache` maps request signatures to promise identities, `nextId` generates a
fresh identity per created promise, `issued` counts the network requests
actually sent. -/
structure CacheState where
  cache : List (String × Nat)
  nextId : Nat
  issued : Nat
deriving DecidableEq, Repr

/-- Embeds the cache interaction of `initPayment` (PaymentGateway.tsx lines
368–379): look up the signature; when absent, create the request (a fresh
promise identity, one network call issued) and store it. -/
def getOrCreate (sig : String) (st : CacheState) : Nat × CacheState :=
  match mget st.cache sig with
  | some p => (p, st)
  | none =>
    (st.nextId,
      { cache := mset st.cache sig st.nextId,
        nextId := st.nextId + 1,
        issued := st.issued + 1 })

/-- Embeds the `.finally` cleanup of the created request (lines 373–377):
when the call settles, delete the cache entry, but only if the stored entry
is still the same promise instance. -/
def settle (sig : String) (p : Nat) (st : CacheState) : CacheState :=
  if mget st.cache sig = some p then { st with cache := mdel st.cache sig }
  else st

/- ===== Section 5: the widget state machine ===== -/

/-- The two payment tabs. -/
inductive Tab where
  | card
  | transfer
deriving DecidableEq, Repr

/-- `CardNextAction` (PaymentGateway.tsx line 35). -/
inductive CardNextAction where
  | none
  | otp
  | redirect
  | success
deriving DecidableEq, Repr

/-- Bank details extracted from the `/bank-details` response (line 218). -/
structure BankDetails where
  bankName : String
  accountName : String
  accountNumber : String
  referenceCode : String
deriving DecidableEq, Repr

/-- Bank payload shape accepted from the server, with both naming
conventions for each field (lines 670–677). -/
structure BankPayload where
  bankName : Option String := none
  bank_name : Option String := none
  accountName : Option String := none
  account_name : Option String := none
  accountNumber : Option String := none
  account_number : Option String := none
  referenceCode : Option String := none
  reference : Option String := none
deriving DecidableEq, Repr

/-- A gateway response body after the `data?.data ?? data` unwrapping
(`plain`), restricted to the fields the handlers read. -/
structure GResp where
  status : Option String := none
  next_action : Option String := none
  message : Option String := none
  redirect_url : Option String := none
  redirectUrl : Option String := none
  data_bankTransfer : Option BankPayload := none
  bankTransfer : Option BankPayload := none
  data_bank : Option BankPayload := none
  bank : Option BankPayload := none
deriving DecidableEq, Repr

/-- Outcome of an awaited network call: a response body (`plain` plus the
enclosing envelope's `message`, read by some fallback chains), or a thrown
error carrying `e.response?.data?.message` and `e.message`. -/
inductive NetResult where
  | ok (plain : GResp) (outerMessage : Option String)
  | err (respMessage : Option String) (errMessage : String)
deriving DecidableEq, Repr

/-- The widget's React state relevant to the payment flow, plus two
timer-observability fields: `redirectTimersArmed` records whether the
redirect countdown/navigation timers are running, `successCallbackQueued`
whether the delayed `onSuccess` timer is armed (with its payload in
`pendingSuccessPayload`). -/
structure WState where
  active : Tab
  errorMsg : Option String
  successMsg : Option String
  overlay : Bool
  transactionId : Option String
  cardStep : Nat
  cardNextAction : CardNextAction
  cardOtp : String
  cardSuccessData : Option GResp
  cardRedirectUrl : Option String
  cardRedirectCountdownSec : Nat
  redirectTimersArmed : Bool
  transferStep : Nat
  bankDetails : Option BankDetails
  transferVerifyCooldownSec : Nat
  transferVerified : Bool
  successCallbackQueued : Bool
  pendingSuccessPayload : Option GResp
deriving DecidableEq, Repr

/-- `clearCardRedirectTimers` (PaymentGateway.tsx lines 285–295). -/
def clearCardRedirectTimers (s : WState) : WState :=
  { s with redirectTimersArmed := false, cardRedirectCountdownSec := 0 }

/-- `resetCardAuthFlow` (lines 297–303). -/
def resetCardAuthFlow (s : WState) : WState :=
  { clearCardRedirectTimers s with
    cardNextAction := .none, cardSuccessData := none,
    cardRedirectUrl := none, cardOtp := "" }

/-- `showCardSuccessState` (lines 305–312). -/
def showCardSuccessState (payload : GResp) (message : String) (s : WState) :
    WState :=
  { clearCardRedirectTimers s with
    cardNextAction := .success, cardSuccessData := some payload,
    cardOtp := "", cardRedirectUrl := none,
    successMsg := some (jsOrS message (jsOrD payload.message "Payment successful.")) }

/-- `queueSuccessCallback` (lines 314–322): arming replaces any pending
success-callback timer rather than stacking a second one. -/
def queueSuccessCallback (payload : GResp) (s : WState) : WState :=
  { s with successCallbackQueued := true, pendingSuccessPayload := some payload }

/-- `startRedirectCountdown` (lines 324–338). -/
def startRedirectCountdown (url : String) (s : WState) : WState :=
  { clearCardRedirectTimers s with
    cardNextAction := .redirect, cardRedirectUrl := some url,
    cardRedirectCountdownSec := 5, redirectTimersArmed := true,
    successMsg := some "Redirect required. You will be redirected in 5 seconds to continue payment." }

/-- Embeds the card-branch response classification of `submit`
(PaymentGateway.tsx lines 473–508), including the fall-through to the
generic tail (lines 507–508) when no branch matches.  The enclosing
`submit` has already cleared both messages and reset the auth flow before
the request (lines 446–451), so in reachable states `s.cardNextAction` is
`none` here; the definition is total in `s` regardless. -/
def cardPayRespond (plain : GResp) (s : WState) : WState :=
  let rawStatus := lcString (plain.status.getD "")
  let nextAction := lcString (plain.next_action.getD "")
  let payMessage := jsOrD plain.message "Card payment response received."
  let redirectUrl := jsOrO plain.redirect_url (jsOrO plain.redirectUrl none)
  if nextAction = "otp" then
    { s with cardNextAction := .otp, cardOtp := "", successMsg := some payMessage }
  else if nextAction = "redirect" then
    match redirectUrl with
    | none =>
      { s with errorMsg := some "Redirect payment requires a redirect URL, but none was returned." }
    | some url => startRedirectCountdown url s
  else if rawStatus = "successful" ∨ rawStatus = "success" ∨ rawStatus = "confirmed" then
    queueSuccessCallback plain
      (showCardSuccessState plain (jsOrD plain.message "Payment successful.") s)
  else if rawStatus = "pending" then
    { s with errorMsg := some payMessage }
  else
    queueSuccessCallback plain { s with successMsg := some "Payment successful." }

/-- Embeds `verifyTransfer` (PaymentGateway.tsx lines 586–636) as a state
transition; the boolean reports whether a network request was sent. -/
def verifyTransferStep (r : NetResult) (s : WState) : WState × Bool :=
  if s.transferVerified then (s, false)
  else if 0 < s.transferVerifyCooldownSec then (s, false)
  else
    match s.transactionId with
    | none =>
      ({ s with errorMsg := some "Transaction could not be initialized. Please retry." }, false)
    | some _ =>
      let s1 : WState := { s with overlay := true, errorMsg := none, successMsg := none }
      match r with
      | .err respMsg eMsg =>
        ({ s1 with
            errorMsg := some (jsOrD respMsg (jsOrS eMsg "Could not verify transfer. Please try again.")),
            overlay := false }, true)
      | .ok plain outer =>
        let rawStatus := lcString (plain.status.getD "")
        let verifyMessage := jsOrD plain.message (jsOrD outer "Verification completed.")
        if rawStatus = "successful" ∨ rawStatus = "success" ∨ rawStatus = "confirmed" then
          ({ s1 with
              transferVerified := true, transferVerifyCooldownSec := 0,
              successMsg := some "Transfer confirmed successfully. Transaction is complete.",
              successCallbackQueued := true, pendingSuccessPayload := some plain,
              overlay := false }, true)
        else if rawStatus = "pending" then
          ({ s1 with
              errorMsg := some verifyMessage, transferVerifyCooldownSec := 60,
              overlay := false }, true)
        else
          ({ s1 with
              errorMsg := some (jsOrS verifyMessage "Unable to confirm transfer status right now."),
              overlay := false }, true)

/-- JS `??` chain on two optional strings with final `?? ""` (the empty
string is not nullish, unlike under `||`). -/
def nshD (a b : Option String) : String :=
  match a with
  | some x => x
  | none =>
    match b with
    | some y => y
    | none => ""

/-- JS `a || b` on optional objects: an object reference is always truthy. -/
def jsOrB (a b : Option BankPayload) : Option BankPayload :=
  if a.isSome then a else b

/-- Embeds `proceedBank` (PaymentGateway.tsx lines 638–694) as a state
transition; the boolean reports whether a network request was sent.  Note
line 646: `setTransferVerified(false)` runs unconditionally before the
request once a transaction id is present. -/
def proceedBankStep (r : NetResult) (s : WState) : WState × Bool :=
  match s.transactionId with
  | none =>
    ({ s with errorMsg := some "Transaction could not be initialized. Please retry." }, false)
  | some _ =>
    let s1 : WState :=
      { s with
        overlay := true, errorMsg := none, successMsg := none,
        transferVerified := false, transferVerifyCooldownSec := 0 }
    match r with
    | .err respMsg eMsg =>
      ({ s1 with
          errorMsg := some (jsOrD respMsg (jsOrS eMsg "Could not generate bank details.")),
          overlay := false }, true)
    | .ok plain _ =>
      let bankPayload :=
        jsOrB plain.data_bankTransfer
          (jsOrB plain.bankTransfer (jsOrB plain.data_bank (jsOrB plain.bank none)))
      match bankPayload with
      | none =>
        ({ s1 with
            errorMsg := some "Bank account details were not returned by the server.",
            overlay := false }, true)
      | some p =>
        let bt : BankDetails :=
          { bankName := nshD p.bankName p.bank_name,
            accountName := nshD p.accountName p.account_name,
            accountNumber := nshD p.accountNumber p.account_number,
            referenceCode := nshD p.referenceCode p.reference }
        if bt.accountNumber = "" then
          ({ s1 with
              errorMsg := some "Bank account details were not returned by the server.",
              overlay := false }, true)
        else
          ({ s1 with
              bankDetails := some bt, transferStep := 2,
              successMsg := some "Bank account generated successfully. Complete the transfer using the details below.",
              overlay := false }, true)

/-- Embeds the payment-method tab buttons' click handlers (PaymentGateway.tsx
lines 764 and 770): reset the card auth flow, select the tab, rewind that
tab's step to 1 and clear both messages. -/
def switchTabStep (t : Tab) (s : WState) : WState :=
  match t with
  | .card =>
    { resetCardAuthFlow s with
      active := .card, cardStep := 1, errorMsg := none, successMsg := none }
  | .transfer =>
    { resetCardAuthFlow s with
      active := .transfer, transferStep := 1, errorMsg := none, successMsg := none }

/-- One tick of the transfer-verify cooldown interval (lines 272–278). -/
def cooldownTickStep (s : WState) : WState :=
  { s with transferVerifyCooldownSec :=
      if s.transferVerifyCooldownSec ≤ 1 then 0 else s.transferVerifyCooldownSec - 1 }

/-- One tick of the redirect countdown interval (lines 331–333). -/
def redirectTickStep (s : WState) : WState :=
  { s with cardRedirectCountdownSec :=
      if s.cardRedirectCountdownSec ≤ 1 then 0 else s.cardRedirectCountdownSec - 1 }

/-- Firing of the delayed success-callback timer (lines 318–321 and
614–617): deliver the payload to `onSuccess` and clear the timer slot. -/
def callbackFireStep (s : WState) : WState :=
  if s.successCallbackQueued then
    { s with successCallbackQueued := false, pendingSuccessPayload := none }
  else s

/-- Operations a widget instance can undergo in the transfer-related part
of its life, each carrying the network outcome it observes (if any). -/
inductive WOp where
  | verifyTransfer (r : NetResult)
  | proceedBank (r : NetResult)
  | switchTab (t : Tab)
  | cooldownTick
  | redirectTick
  | callbackFire
deriving DecidableEq, Repr

/-- Whether an operation is a `proceedBank` invocation. -/
def isProceedBank : WOp → Bool
  | .proceedBank _ => true
  | _ => false

/-- Apply one operation to the widget state. -/
def applyOp : WOp → WState → WState
  | .verifyTransfer r, s => (verifyTransferStep r s).1
  | .proceedBank r, s => (proceedBankStep r s).1
  | .switchTab t, s => switchTabStep t s
  | .cooldownTick, s => cooldownTickStep s
  | .redirectTick, s => redirectTickStep s
  | .callbackFire, s => callbackFireStep s

/-- Apply a sequence of operations, oldest first. -/
def applyOps : List WOp → WState → WState
  | [], s => s
  | op :: rest, s => applyOps rest (applyOp op s)

/- ===== Section 6: initialization response handling ===== -/

/-- The nested `data` object of an initialization response (fields read at
PaymentGateway.tsx lines 383–392). -/
structure InitInner where
  transaction_id : Option String := none
  transactionId : Option String := none
  id : Option String := none
  reference : Option String := none
deriving DecidableEq, Repr

/-- An unwrapped initialization response body (`plain`). -/
structure InitPlain where
  data : Option InitInner := none
  transaction_id : Option String := none
  transactionId : Option String := none
  id : Option String := none
  reference : Option String := none
deriving DecidableEq, Repr

/-- Embeds the transaction-id extraction chain of `initPayment`
(PaymentGateway.tsx lines 383–392): a `||` chain over
`plain?.data?.transaction_id`, `plain?.data?.transactionId`,
`plain?.transaction_id`, `plain?.transactionId`, `plain?.data?.id`,
`plain?.id`, `plain?.data?.reference`, `plain?.reference`, ending in
`null`. -/
def extractTId (plain : InitPlain) : Option String :=
  jsOrO (plain.data.bind InitInner.transaction_id)
    (jsOrO (plain.data.bind InitInner.transactionId)
      (jsOrO plain.transaction_id
        (jsOrO plain.transactionId
          (jsOrO (plain.data.bind InitInner.id)
            (jsOrO plain.id
              (jsOrO (plain.data.bind InitInner.reference)
                (jsOrO plain.reference none)))))))

/-- The eight positions of the extraction chain, in source order. -/
def tidFieldAt (plain : InitPlain) : Nat → Option String
  | 0 => plain.data.bind InitInner.transaction_id
  | 1 => plain.data.bind InitInner.transactionId
  | 2 => plain.transaction_id
  | 3 => plain.transactionId
  | 4 => plain.data.bind InitInner.id
  | 5 => plain.id
  | 6 => plain.data.bind InitInner.reference
  | 7 => plain.reference
  | _ => none

/-- First value of two options that is present at all (regardless of
truthiness): the reading of "first present field" in the specification. -/
def someOr (a b : Option String) : Option String :=
  if a.isSome then a else b

/-- Specification-side extraction: the first *present* field of the chain,
in the same order the source reads them. -/
def claimFirstPresent (plain : InitPlain) : Option String :=
  someOr (tidFieldAt plain 0)
    (someOr (tidFieldAt plain 1)
      (someOr (tidFieldAt plain 2)
        (someOr (tidFieldAt plain 3)
          (someOr (tidFieldAt plain 4)
            (someOr (tidFieldAt plain 5)
              (someOr (tidFieldAt plain 6)
                (someOr (tidFieldAt plain 7) none)))))))

/-- `InitState` (PaymentGateway.tsx lines 29–32). -/
inductive InitSt where
  | idle
  | loading
  | success (data : InitPlain)
  | error (msg : String)
deriving DecidableEq, Repr

/-- Outcome of the awaited initialization request. -/
inductive InitNet where
  | ok (plain : InitPlain)
  | err (respMessage : Option String) (errMessage : String)
deriving DecidableEq, Repr

/-- Embeds the tail of `initPayment` (PaymentGateway.tsx lines 381–401):
on success, store the extracted transaction id (possibly null) and enter
the `success` init state; on failure, enter the `error` state with the
extracted message and leave the transaction id as it was (initially
null). -/
def initResolve (r : InitNet) (prevTId : Option String) : InitSt × Option String :=
  match r with
  | .ok plain => (.success plain, extractTId plain)
  | .err respMsg eMsg =>
    (.error (jsOrD respMsg (jsOrS eMsg "Unable to initialize payment, please try again.")), prevTId)

/- ===== Section 7: concrete instances used by the theorems ===== -/

/-- A reachable widget state on the transfer tab with a confirmed
(verified) transfer: transaction initialized, bank details shown,
verification succeeded. -/
def wsVerified : WState :=
  { active := .transfer, errorMsg := none,
    successMsg := some "Transfer confirmed successfully. Transaction is complete.",
    overlay := false, transactionId := some "tx_1", cardStep := 1,
    cardNextAction := .none, cardOtp := "", cardSuccessData := none,
    cardRedirectUrl := none, cardRedirectCountdownSec := 0,
    redirectTimersArmed := false, transferStep := 2,
    bankDetails := some ⟨"Demo Bank", "GeckoRave", "0123456789", "REF-1"⟩,
    transferVerifyCooldownSec := 0, transferVerified := true,
    successCallbackQueued := true, pendingSuccessPayload := some {} }

/-- A card `/pay` response with `status: "pending"`. -/
def pendingResp : GResp := { status := some "pending", message := some "processing" }

/-- A card `/pay` response body with no recognised field at all (`{}`). -/
def emptyResp : GResp := {}

/-- A card `/pay` response with `status: "failed"`. -/
def failedResp : GResp := { status := some "failed" }

/-- A payload whose fields `a` and `b` reference the same object (tag 2). -/
def vShared : JVal :=
  .jobj 1 [("a", .jobj 2 [("x", .jnum 1)]), ("b", .jobj 2 [("x", .jnum 1)])]

/-- The structurally equal payload whose fields `a` and `b` hold two
distinct objects (tags 2 and 3). -/
def vCopies : JVal :=
  .jobj 1 [("a", .jobj 2 [("x", .jnum 1)]), ("b", .jobj 3 [("x", .jnum 1)])]

/-- An initialization response with `transaction_id` present but empty and
`reference` present and non-empty. -/
def initRespEmptyTid : InitPlain :=
  { transaction_id := some "", reference := some "ref_9" }

/-- An initialization response carrying only `id`. -/
def initRespOnlyId : InitPlain := { id := some "abc" }

/-- The default endpoint base URL (PaymentGateway.tsx line 37). -/
def demoBaseURL : String := "https://api.geckorave.com/api/v1/gecko-pay/payment/widget"

/- ===== Theorems ===== -/

/-- Lookup misses when the key is absent. -/
theorem mget_not_mem {l : List (String × Nat)} {sig : String}
    (h : sig ∉ l.map Prod.fst) : mget l sig = none := by
  induction l with
  | nil => rfl
  | cons p rest ih =>
    rcases p with ⟨k, w⟩
    simp only [List.map_cons, List.mem_cons, not_or] at h
    have hk : ¬(k = sig) := fun e => h.1 e.symm
    simp [mget, hk, ih h.2]

/-- Deleting a key removes its binding when keys are unique. -/
theorem mget_mdel_self {l : List (String × Nat)} {sig : String}
    (h : (l.map Prod.fst).Nodup) : mget (mdel l sig) sig = none := by
  induction l with
  | nil => rfl
  | cons p rest ih =>
    rcases p with ⟨k, w⟩
    simp only [List.map_cons, List.nodup_cons] at h
    by_cases hk : k = sig
    · subst hk
      simpa [mdel] using mget_not_mem h.1
    · simp [mdel, hk, mget, ih h.2]

/-- Claim C3: a pending entry for a signature is reused as-is (no new
network call); settlement removes the entry only while the stored entry is
still the same promise instance, and at most once; concretely, two
back-to-back requests with one signature share one underlying call and one
network request, and a third request after settlement issues a new call. -/
theorem C3_init_dedup :
    (∀ (st : CacheState) (sig : String) (p : Nat),
      mget st.cache sig = some p → getOrCreate sig st = (p, st)) ∧
    (∀ (st : CacheState) (sig : String) (p q : Nat),
      mget st.cache sig = some q → q ≠ p → settle sig p st = st) ∧
    (∀ (st : CacheState) (sig : String) (p : Nat),
      (st.cache.map Prod.fst).Nodup → mget st.cache sig = some p →
        mget (settle sig p st).cache sig = none ∧
        settle sig p (settle sig p st) = settle sig p st) ∧
    (let st0 : CacheState := ⟨[], 0, 0⟩
     let r1 := getOrCreate "sig" st0
     let r2 := getOrCreate "sig" r1.2
     let st3 := settle "sig" r1.1 r2.2
     let r3 := getOrCreate "sig" st3
     r2.1 = r1.1 ∧ r2.2 = r1.2 ∧ r2.2.issued = 1 ∧
       r3.1 ≠ r1.1 ∧ r3.2.issued = 2) := by
  refine ⟨?_, ?_, ?_, ?_⟩
  · intro st sig p h
    simp [getOrCreate, h]
  · intro st sig p q hq hne
    simp [settle, hq, hne]
  · intro st sig p hnd h
    have hdel : mget (mdel st.cache sig) sig = none := mget_mdel_self hnd
    constructor
    · simp [settle, h, hdel]
    · simp [settle, h, hdel]
  · decide

/-- Witness for C3 at a concrete cache state holding a pending entry. -/
theorem C3_witness :
    mget [("sig", 5)] "sig" = some 5 ∧
    getOrCreate "sig" ⟨[("sig", 5)], 6, 1⟩ = (5, ⟨[("sig", 5)], 6, 1⟩) ∧
    ([("sig", 5)].map Prod.fst).Nodup ∧
    mget (settle "sig" 5 ⟨[("sig", 5)], 6, 1⟩).cache "sig" = none :=
  ⟨rfl, C3_init_dedup.1 ⟨[("sig", 5)], 6, 1⟩ "sig" 5 rfl, by decide,
    (C3_init_dedup.2.2.1 ⟨[("sig", 5)], 6, 1⟩ "sig" 5 (by decide) rfl).1⟩

/-- Claim C4: while the transfer is already verified or the cooldown is
running, `verifyTransfer` is a no-op — no request is sent and the widget
state is returned unchanged. -/
theorem C4_verify_noop (s : WState) (r : NetResult)
    (h : s.transferVerified = true ∨ 0 < s.transferVerifyCooldownSec) :
    verifyTransferStep r s = (s, false) := by
  rcases h with h | h
  · simp [verifyTransferStep, h]
  · rcases hv : s.transferVerified with _ | _
    · simp [verifyTransferStep, hv, h]
    · simp [verifyTransferStep, hv]

/-- Witness for C4 at the concrete verified state. -/
theorem C4_witness :
    wsVerified.transferVerified = true ∧
    verifyTransferStep (.ok {} none) wsVerified = (wsVerified, false) :=
  ⟨rfl, C4_verify_noop wsVerified (.ok {} none) (Or.inl rfl)⟩

/-- Counterexample to claim C2 as stated: from a reachable verified state,
switching to the transfer tab and regenerating the bank account
(`proceedBank`) resets `transferVerified` from `true` back to `false`. -/
theorem C2_counterexample :
    wsVerified.transferVerified = true ∧
    (applyOps [WOp.switchTab .transfer, WOp.proceedBank (.ok {} none)]
        wsVerified).transferVerified = false :=
  ⟨rfl, rfl⟩

/-- Claim C2 (amended): `transferVerified` is monotone under every sequence
of `verifyTransfer` calls, tab switches, timer ticks and callback firings —
every operation except `proceedBank`, which unconditionally resets the flag
before regenerating bank details. -/
theorem C2_verified_monotone :
    ∀ (ops : List WOp) (s : WState), s.transferVerified = true →
      (∀ op ∈ ops, isProceedBank op = false) →
      (applyOps ops s).transferVerified = true := by
  intro ops
  induction ops with
  | nil => intro s hs _; exact hs
  | cons op rest ih =>
    intro s hs hops
    have hop := hops op (List.mem_cons_self op rest)
    have hrest : ∀ o ∈ rest, isProceedBank o = false := fun o ho =>
      hops o (List.mem_cons_of_mem op ho)
    have hstep : (applyOp op s).transferVerified = true := by
      cases op with
      | verifyTransfer r => simp [applyOp, verifyTransferStep, hs]
      | proceedBank r => simp [isProceedBank] at hop
      | switchTab t =>
        cases t <;>
          simp [applyOp, switchTabStep, resetCardAuthFlow,
            clearCardRedirectTimers, hs]
      | cooldownTick => simpa [applyOp, cooldownTickStep] using hs
      | redirectTick => simpa [applyOp, redirectTickStep] using hs
      | callbackFire =>
        by_cases hq : s.successCallbackQueued <;>
          simp [applyOp, callbackFireStep, hq, hs]
    exact ih (applyOp op s) hstep hrest

/-- Witness for the amended C2 on a concrete verified state and a concrete
`proceedBank`-free operation sequence. -/
theorem C2_witness :
    wsVerified.transferVerified = true ∧
    (∀ op ∈ [WOp.cooldownTick, WOp.verifyTransfer (.ok {} none),
        WOp.callbackFire], isProceedBank op = false) ∧
    (applyOps [WOp.cooldownTick, WOp.verifyTransfer (.ok {} none),
        WOp.callbackFire] wsVerified).transferVerified = true :=
  ⟨rfl, by decide,
    C2_verified_monotone _ wsVerified rfl (by decide)⟩

/-- Claim C1 (the code violates it): on a card `/pay` response with
`status: "pending"` the widget surfaces the message as an error and changes
nothing else — it stays in the current auth sub-state and schedules no
callback; but on a response of any other unrecognised shape (here
`{status: "failed"}` and `{}`), instead of surfacing the generic failure
message with no state change, the code falls through to the generic tail,
sets the success message "Payment successful." and arms the delayed
`onSuccess` callback. -/
theorem C1_card_pay_fallthrough (s : WState) :
    cardPayRespond pendingResp s = { s with errorMsg := some "processing" } ∧
    cardPayRespond failedResp s =
      { s with successMsg := some "Payment successful.",
               successCallbackQueued := true,
               pendingSuccessPayload := some failedResp } ∧
    cardPayRespond emptyResp s =
      { s with successMsg := some "Payment successful.",
               successCallbackQueued := true,
               pendingSuccessPayload := some emptyResp } :=
  ⟨rfl, rfl, rfl⟩

/-- Claim C10: the two structurally equal payloads `vShared` (fields `a`
and `b` referencing one object) and `vCopies` (two separate objects)
serialize differently: the second reference to the shared object — sibling,
acyclic sharing — is replaced by the `"[Circular]"` sentinel because
visited objects are marked and never unmarked. -/
theorem C10_circular_sentinel :
    stripV vShared = stripV vCopies ∧
    jsNormalize vShared =
      .jobj 0 [("a", .jobj 0 [("x", .jnum 1)]), ("b", .jstr "[Circular]")] ∧
    jsNormalize vCopies =
      .jobj 0 [("a", .jobj 0 [("x", .jnum 1)]),
        ("b", .jobj 0 [("x", .jnum 1)])] ∧
    stableSerialize vShared ≠ stableSerialize vCopies :=
  ⟨rfl, rfl, rfl, by decide⟩

/-- Claim C9: the Luhn check accepts the empty string (empty sum), but the
widget-level card validity rejects every digit string shorter than 12. -/
theorem C9_empty_luhn_guarded :
    isValidLuhn "" = true ∧
    (∀ s : String, s.data.length < 12 → cardNumberValid s = false) := by
  refine ⟨rfl, ?_⟩
  intro s h
  have h12 : (12 ≤ s.data.length : Bool) = false := by
    simp only [decide_eq_false_iff_not]
    omega
  unfold cardNumberValid digits12to19
  rw [h12]
  rfl

/-- Witness for C9 on an 11-digit input. -/
theorem C9_witness :
    ("41111111111" : String).data.length < 12 ∧
    cardNumberValid "41111111111" = false :=
  ⟨by decide, C9_empty_luhn_guarded.2 "41111111111" (by decide)⟩

/-- Every accepted length of every detected brand lies in 12–19. -/
theorem detect_lengths_bound (d : String) (n : Nat)
    (h : n ∈ (detectCardType d).lengths) : 12 ≤ n ∧ n ≤ 19 := by
  unfold detectCardType at h
  split_ifs at h <;> simp_all <;> omega

/-- Claim C5: on digit strings, card validity is exactly Luhn plus the
detected brand's accepted length set; `"4111111111111111"` is a valid visa
and the 12-digit `"411111111111"` is visa but invalid. -/
theorem C5_card_validity :
    (∀ d : String, d.data.all Char.isDigit = true →
      (cardNumberValid d = true ↔
        isValidLuhn d = true ∧
          d.data.length ∈ (detectCardType d).lengths)) ∧
    detectCardType "4111111111111111" = ⟨"Visa", [13, 16, 19]⟩ ∧
    cardNumberValid "4111111111111111" = true ∧
    detectCardType "411111111111" = ⟨"Visa", [13, 16, 19]⟩ ∧
    cardNumberValid "411111111111" = false := by
  refine ⟨?_, rfl, by decide, rfl, by decide⟩
  intro d hall
  constructor
  · intro h
    simp only [cardNumberValid, Bool.and_eq_true] at h
    exact ⟨h.2, List.elem_iff.1 h.1.2⟩
  · rintro ⟨hl, hmem⟩
    obtain ⟨h12, h19⟩ := detect_lengths_bound d _ hmem
    have hd : digits12to19 d = true := by
      unfold digits12to19
      simp only [Bool.and_eq_true, decide_eq_true_eq]
      exact ⟨⟨h12, h19⟩, hall⟩
    unfold cardNumberValid
    simp only [Bool.and_eq_true]
    exact ⟨⟨hd, List.elem_iff.2 hmem⟩, hl⟩

/-- Witness for C5 at the concrete visa number. -/
theorem C5_witness :
    ("4111111111111111" : String).data.all Char.isDigit = true ∧
    (cardNumberValid "4111111111111111" = true ↔
      isValidLuhn "4111111111111111" = true ∧
        ("4111111111111111" : String).data.length ∈
          (detectCardType "4111111111111111").lengths) :=
  ⟨by decide, C5_card_validity.1 "4111111111111111" (by decide)⟩

/-- `Number(c)` is `NaN` exactly on characters that are neither digits nor
JS whitespace. -/
theorem charToNum_none_iff (c : Char) :
    charToNum c = none ↔ (c.isDigit = false ∧ jsWhitespace c = false) := by
  unfold charToNum
  split_ifs <;> simp_all

/-- `Number(c)` converts digits and JS whitespace. -/
theorem charToNum_isSome (c : Char)
    (h : c.isDigit = true ∨ jsWhitespace c = true) :
    (charToNum c).isSome = true := by
  unfold charToNum
  split_ifs <;> simp_all

/-- The Luhn loop aborts with `false` whenever some character converts to
`NaN`. -/
theorem luhnGo_bad : ∀ (cs : List Char) (dbl : Bool) (sum : Nat),
    (∃ c ∈ cs, charToNum c = none) → luhnGo cs dbl sum = false := by
  intro cs
  induction cs with
  | nil => rintro _ _ ⟨c, hc, _⟩; simp at hc
  | cons c rest ih =>
    rintro dbl sum ⟨x, hx, hxn⟩
    rcases List.mem_cons.1 hx with rfl | hx'
    · simp [luhnGo, hxn]
    · cases hc : charToNum c with
      | none => simp [luhnGo, hc]
      | some d =>
        simp only [luhnGo, hc]
        exact ih _ _ ⟨x, hx', hxn⟩

/-- On convertible characters the Luhn loop computes the parity-doubled sum
of the coerced values. -/
theorem luhnGo_sum : ∀ (cs : List Char) (dbl : Bool) (sum : Nat),
    (∀ c ∈ cs, (charToNum c).isSome = true) →
    (luhnGo cs dbl sum = true ↔
      (sum + luhnSpecGo (cs.map jsCharVal) dbl) % 10 = 0) := by
  intro cs
  induction cs with
  | nil => intro dbl sum _; simp [luhnGo, luhnSpecGo]
  | cons c rest ih =>
    intro dbl sum hall
    have hc := hall c (List.mem_cons_self c rest)
    rcases hsome : charToNum c with _ | d
    · rw [hsome] at hc; simp at hc
    · have hval : jsCharVal c = d := by simp [jsCharVal, hsome]
      have hrest : ∀ x ∈ rest, (charToNum x).isSome = true := fun x hx =>
        hall x (List.mem_cons_of_mem c hx)
      simp only [luhnGo, hsome, List.map_cons, luhnSpecGo, hval]
      rw [ih (!dbl) (sum + (if dbl then doubledVal d else d)) hrest,
        Nat.add_assoc]

/-- Claim C7 (amended): the Luhn check returns `false` when some character
is neither a digit nor JS whitespace (whitespace coerces to 0 under
`Number`, so it does not abort); on strings of digits and whitespace it
returns `true` exactly when the doubled-digit sum of the coerced values is
divisible by ten; the two concrete examples hold. -/
theorem C7_luhn :
    (∀ s : String,
      (∃ c ∈ s.data, c.isDigit = false ∧ jsWhitespace c = false) →
      isValidLuhn s = false) ∧
    (∀ s : String,
      (∀ c ∈ s.data, c.isDigit = true ∨ jsWhitespace c = true) →
      (isValidLuhn s = true ↔
        luhnSpecSum (s.data.map jsCharVal) % 10 = 0)) ∧
    isValidLuhn "4532015112830366" = true ∧
    isValidLuhn "4532015112830367" = false := by
  refine ⟨?_, ?_, by decide, by decide⟩
  · rintro s ⟨c, hc, h1, h2⟩
    exact luhnGo_bad _ _ _
      ⟨c, List.mem_reverse.2 hc, (charToNum_none_iff c).2 ⟨h1, h2⟩⟩
  · intro s hall
    have hs : ∀ c ∈ s.data.reverse, (charToNum c).isSome = true := fun c hc =>
      charToNum_isSome c (hall c (List.mem_reverse.1 hc))
    unfold isValidLuhn luhnSpecSum
    rw [luhnGo_sum s.data.reverse false 0 hs, Nat.zero_add,
      List.map_reverse]

/-- Counterexample to claim C7 as stated: a space is not a digit, yet the
Luhn check accepts `" "` because JS `Number(" ")` is `0`. -/
theorem C7_counterexample :
    Char.isDigit ' ' = false ∧ isValidLuhn " " = true := ⟨rfl, rfl⟩

/-- Witness for the amended C7 on a concrete input with a true non-digit. -/
theorem C7_witness :
    (∃ c ∈ ("12a" : String).data, c.isDigit = false ∧ jsWhitespace c = false) ∧
    isValidLuhn "12a" = false :=
  ⟨by decide, C7_luhn.1 "12a" (by decide)⟩

/-- `a || b` short-circuits on a truthy left operand. -/
theorem jsOrO_true {a : Option String} (h : jsTruthy a = true)
    (b : Option String) : jsOrO a b = a := by
  simp [jsOrO, h]

/-- `a || b` falls through on a falsy left operand. -/
theorem jsOrO_false {a : Option String} (h : jsTruthy a = false)
    (b : Option String) : jsOrO a b = b := by
  simp [jsOrO, h]

/-- The extraction chain, spelt with its eight positions. -/
theorem extractTId_eq_chain (p : InitPlain) :
    extractTId p =
      jsOrO (tidFieldAt p 0) (jsOrO (tidFieldAt p 1) (jsOrO (tidFieldAt p 2)
        (jsOrO (tidFieldAt p 3) (jsOrO (tidFieldAt p 4) (jsOrO (tidFieldAt p 5)
          (jsOrO (tidFieldAt p 6) (jsOrO (tidFieldAt p 7) none))))))) := rfl

/-- Claim C8 (amended): the stored transaction id is the value of the first
*truthy* (present and non-empty) field of the chain, in source order;
a present-but-empty field is skipped as if absent.  When every field is
absent or empty the id is null and initialization still resolves to the
`success` state. -/
theorem C8_tid_extraction :
    (∀ (p : InitPlain) (i : Nat), i < 8 →
      (∀ j, j < i → jsTruthy (tidFieldAt p j) = false) →
      jsTruthy (tidFieldAt p i) = true →
      extractTId p = tidFieldAt p i) ∧
    (∀ (p : InitPlain) (t0 : Option String),
      (∀ j, j < 8 → jsTruthy (tidFieldAt p j) = false) →
      extractTId p = none ∧ initResolve (.ok p) t0 = (.success p, none)) := by
  constructor
  · intro p i hi hprev hcur
    interval_cases i
    · rw [extractTId_eq_chain, jsOrO_true hcur]
    · rw [extractTId_eq_chain, jsOrO_false (hprev 0 (by omega)),
        jsOrO_true hcur]
    · rw [extractTId_eq_chain, jsOrO_false (hprev 0 (by omega)),
        jsOrO_false (hprev 1 (by omega)), jsOrO_true hcur]
    · rw [extractTId_eq_chain, jsOrO_false (hprev 0 (by omega)),
        jsOrO_false (hprev 1 (by omega)), jsOrO_false (hprev 2 (by omega)),
        jsOrO_true hcur]
    · rw [extractTId_eq_chain, jsOrO_false (hprev 0 (by omega)),
        jsOrO_false (hprev 1 (by omega)), jsOrO_false (hprev 2 (by omega)),
        jsOrO_false (hprev 3 (by omega)), jsOrO_true hcur]
    · rw [extractTId_eq_chain, jsOrO_false (hprev 0 (by omega)),
        jsOrO_false (hprev 1 (by omega)), jsOrO_false (hprev 2 (by omega)),
        jsOrO_false (hprev 3 (by omega)), jsOrO_false (hprev 4 (by omega)),
        jsOrO_true hcur]
    · rw [extractTId_eq_chain, jsOrO_false (hprev 0 (by omega)),
        jsOrO_false (hprev 1 (by omega)), jsOrO_false (hprev 2 (by omega)),
        jsOrO_false (hprev 3 (by omega)), jsOrO_false (hprev 4 (by omega)),
        jsOrO_false (hprev 5 (by omega)), jsOrO_true hcur]
    · rw [extractTId_eq_chain, jsOrO_false (hprev 0 (by omega)),
        jsOrO_false (hprev 1 (by omega)), jsOrO_false (hprev 2 (by omega)),
        jsOrO_false (hprev 3 (by omega)), jsOrO_false (hprev 4 (by omega)),
        jsOrO_false (hprev 5 (by omega)), jsOrO_false (hprev 6 (by omega)),
        jsOrO_true hcur]
  · intro p t0 hall
    have hnone : extractTId p = none := by
      rw [extractTId_eq_chain, jsOrO_false (hall 0 (by omega)),
        jsOrO_false (hall 1 (by omega)), jsOrO_false (hall 2 (by omega)),
        jsOrO_false (hall 3 (by omega)), jsOrO_false (hall 4 (by omega)),
        jsOrO_false (hall 5 (by omega)), jsOrO_false (hall 6 (by omega)),
        jsOrO_false (hall 7 (by omega))]
    exact ⟨hnone, by simp [initResolve, hnone]⟩

/-- Counterexample to claim C8 as stated: with `transaction_id` present but
empty and `reference` present, the first *present* field is the empty
`transaction_id`, but the code's `||` chain skips it and stores
`reference`. -/
theorem C8_counterexample :
    initRespEmptyTid.transaction_id = some "" ∧
    claimFirstPresent initRespEmptyTid = some "" ∧
    extractTId initRespEmptyTid = some "ref_9" ∧
    extractTId initRespEmptyTid ≠ claimFirstPresent initRespEmptyTid :=
  ⟨rfl, rfl, rfl, by decide⟩

/-- Witness for the amended C8 on a response carrying only `id`. -/
theorem C8_witness :
    (∀ j, j < 5 → jsTruthy (tidFieldAt initRespOnlyId j) = false) ∧
    jsTruthy (tidFieldAt initRespOnlyId 5) = true ∧
    extractTId initRespOnlyId = tidFieldAt initRespOnlyId 5 :=
  ⟨by decide, rfl,
    C8_tid_extraction.1 initRespOnlyId 5 (by omega) (by decide) rfl⟩

/-- Every JS value has positive size. -/
theorem szV_pos (v : JVal) : 1 ≤ szV v := by
  cases v <;> simp [szV]

/-- Elements are no larger than their list. -/
theorem szL_mem {e : JVal} : ∀ {es : List JVal}, e ∈ es → szV e ≤ szL es := by
  intro es
  induction es with
  | nil => intro h; simp at h
  | cons v vs ih =>
    intro h
    rcases List.mem_cons.1 h with rfl | h'
    · simp [szL]; omega
    · have := ih h'
      simp [szL]; omega

/-- Field values are no larger than their field list. -/
theorem szF_mem {p : String × JVal} :
    ∀ {fs : List (String × JVal)}, p ∈ fs → szV p.2 ≤ szF fs := by
  intro fs
  induction fs with
  | nil => intro h; simp at h
  | cons q rest ih =>
    intro h
    rcases q with ⟨k, v⟩
    rcases List.mem_cons.1 h with rfl | h'
    · simp [szF]; omega
    · have := ih h'
      simp [szF]; omega

/-- Structural induction over `JVal` through the nested lists. -/
theorem jval_ind {P : JVal → Prop}
    (hnull : P .jnull) (hundef : P .jundef) (hfn : P .jfun) (hsym : P .jsym)
    (hbool : ∀ b, P (.jbool b)) (hnum : ∀ n, P (.jnum n))
    (hstr : ∀ s, P (.jstr s)) (hdate : ∀ iso, P (.jdate iso))
    (harr : ∀ es, (∀ e ∈ es, P e) → P (.jarr es))
    (hobj : ∀ i fs, (∀ p ∈ fs, P p.2) → P (.jobj i fs)) :
    ∀ v, P v := by
  have key : ∀ (n : Nat) (v : JVal), szV v ≤ n → P v := by
    intro n
    induction n with
    | zero =>
      intro v hv
      have := szV_pos v
      omega
    | succ n ih =>
      intro v hv
      cases v with
      | jnull => exact hnull
      | jundef => exact hundef
      | jfun => exact hfn
      | jsym => exact hsym
      | jbool b => exact hbool b
      | jnum m => exact hnum m
      | jstr t => exact hstr t
      | jdate iso => exact hdate iso
      | jarr es =>
        refine harr es fun e he => ih e ?_
        have h1 := szL_mem he
        have h2 : szV (JVal.jarr es) = szL es + 1 := by simp [szV]
        omega
      | jobj i fs =>
        refine hobj i fs fun p hp => ih p.2 ?_
        have h1 := szF_mem hp
        have h2 : szV (JVal.jobj i fs) = szF fs + 1 := by simp [szV]
        omega
  exact fun v => key (szV v) v (Nat.le_refl _)

/-- Inserting a field adds its size. -/
theorem szF_insField (p : String × JVal) :
    ∀ l : List (String × JVal), szF (insField p l) = szV p.2 + szF l + 1 := by
  intro l
  induction l with
  | nil =>
    rcases p with ⟨k, v⟩
    simp [insField, szF]
  | cons q rest ih =>
    rcases p with ⟨k, v⟩
    rcases q with ⟨k', v'⟩
    by_cases hle : strLeb k k' = true
    · simp [insField, hle, szF]
    · simp [insField, hle, szF, ih]
      omega

/-- Sorting the fields preserves their total size. -/
theorem szF_sortFields : ∀ l : List (String × JVal), szF (sortFields l) = szF l := by
  intro l
  induction l with
  | nil => rfl
  | cons p rest ih =>
    rcases p with ⟨k, v⟩
    simp [sortFields, szF_insField, szF, ih]

/-- Canonicalizing each array element preserves the list size. -/
theorem szL_canonL_of {es : List JVal}
    (h : ∀ e ∈ es, szV (canonV e) = szV e) : szL (canonL es) = szL es := by
  induction es with
  | nil => rfl
  | cons v vs ih =>
    have hv := h v (List.mem_cons_self v vs)
    have hvs := ih fun e he => h e (List.mem_cons_of_mem v he)
    simp [canonL, szL, hv, hvs]

/-- Canonicalizing each field value preserves the field-list size. -/
theorem szF_canonFs_of {fs : List (String × JVal)}
    (h : ∀ p ∈ fs, szV (canonV p.2) = szV p.2) : szF (canonFs fs) = szF fs := by
  induction fs with
  | nil => rfl
  | cons q rest ih =>
    rcases q with ⟨k, v⟩
    have hv := h (k, v) (List.mem_cons_self (k, v) rest)
    have hrest := ih fun p hp => h p (List.mem_cons_of_mem (k, v) hp)
    simp [canonFs, szF, hv, hrest]

/-- Canonicalization preserves size. -/
theorem szV_canon : ∀ v : JVal, szV (canonV v) = szV v := by
  refine jval_ind rfl rfl rfl rfl (fun _ => rfl) (fun _ => rfl) (fun _ => rfl)
    (fun _ => rfl) ?_ ?_
  · intro es h
    simp [canonV, szV, szL_canonL_of h]
  · intro i fs h
    simp [canonV, szV, szF_sortFields, szF_canonFs_of h]

/-- Whether a value is dropped from objects depends only on its canonical
form. -/
theorem isSkipped_canonV (v : JVal) : isSkipped (canonV v) = isSkipped v := by
  cases v <;> rfl

/-- Insertion by key commutes with canonicalizing field values (the
comparison reads only the key). -/
theorem insField_canonFs (k : String) (v : JVal) :
    ∀ l : List (String × JVal),
      insField (k, canonV v) (canonFs l) = canonFs (insField (k, v) l) := by
  intro l
  induction l with
  | nil => rfl
  | cons q rest ih =>
    rcases q with ⟨k', v'⟩
    by_cases hle : strLeb k k' = true
    · simp [canonFs, insField, hle]
    · simp [canonFs, insField, hle, ih]

/-- Sorting by key commutes with canonicalizing field values. -/
theorem sortFields_canonFs :
    ∀ l : List (String × JVal),
      sortFields (canonFs l) = canonFs (sortFields l) := by
  intro l
  induction l with
  | nil => rfl
  | cons q rest ih =>
    rcases q with ⟨k, v⟩
    simp only [canonFs, sortFields, ih, insField_canonFs]

/-- Inverting canonicalization at an array result. -/
theorem canonV_arr_inv {v : JVal} {l : List JVal} (h : canonV v = .jarr l) :
    ∃ es, v = .jarr es ∧ canonL es = l := by
  cases v <;> first
    | exact ⟨_, rfl, JVal.jarr.inj h⟩
    | exact JVal.noConfusion h

/-- Inverting canonicalization at an object result. -/
theorem canonV_obj_inv {v : JVal} {i : Nat} {l : List (String × JVal)}
    (h : canonV v = .jobj i l) :
    ∃ fs, v = .jobj i fs ∧ sortFields (canonFs fs) = l := by
  cases v with
  | jobj j fs =>
    obtain ⟨hi, hl⟩ := JVal.jobj.inj h
    cases hi
    exact ⟨fs, rfl, hl⟩
  | jnull => exact JVal.noConfusion h
  | jundef => exact JVal.noConfusion h
  | jfun => exact JVal.noConfusion h
  | jsym => exact JVal.noConfusion h
  | jbool b => exact JVal.noConfusion h
  | jnum m => exact JVal.noConfusion h
  | jstr t => exact JVal.noConfusion h
  | jdate iso => exact JVal.noConfusion h
  | jarr es => exact JVal.noConfusion h

/-- Array traversal of the normalizer is determined by the canonical forms
of the elements, for any element-congruent traversal function. -/
theorem goArr_congr (f : JVal → List Nat → Option (JVal × List Nat))
    (hf : ∀ v1 v2 s, canonV v1 = canonV v2 → f v1 s = f v2 s) :
    ∀ (l1 l2 : List JVal) (s : List Nat), canonL l1 = canonL l2 →
      goArr f l1 s = goArr f l2 s := by
  intro l1
  induction l1 with
  | nil =>
    intro l2 s h
    cases l2 with
    | nil => rfl
    | cons w ws => simp [canonL] at h
  | cons v vs ih =>
    intro l2 s h
    cases l2 with
    | nil => simp [canonL] at h
    | cons w ws =>
      simp only [canonL, List.cons.injEq] at h
      obtain ⟨h1, h2⟩ := h
      simp only [goArr]
      rw [hf v w s h1]
      cases hfw : f w s with
      | none => rfl
      | some r =>
        simp only [Option.some_bind]
        rw [ih ws r.2 h2]

/-- Field traversal of the normalizer is determined by the canonical forms
of the field values. -/
theorem goFields_congr (f : JVal → List Nat → Option (JVal × List Nat))
    (hf : ∀ v1 v2 s, canonV v1 = canonV v2 → f v1 s = f v2 s) :
    ∀ (l1 l2 : List (String × JVal)) (s : List Nat), canonFs l1 = canonFs l2 →
      goFields f l1 s = goFields f l2 s := by
  intro l1
  induction l1 with
  | nil =>
    intro l2 s h
    cases l2 with
    | nil => rfl
    | cons w ws =>
      rcases w with ⟨k, v⟩
      simp [canonFs] at h
  | cons q rest ih =>
    intro l2 s h
    rcases q with ⟨k1, v1⟩
    cases l2 with
    | nil => simp [canonFs] at h
    | cons w ws =>
      rcases w with ⟨k2, v2⟩
      simp only [canonFs, List.cons.injEq, Prod.mk.injEq] at h
      obtain ⟨⟨hk, hv⟩, ht⟩ := h
      cases hk
      have hskip : isSkipped v1 = isSkipped v2 := by
        rw [← isSkipped_canonV v1, ← isSkipped_canonV v2, hv]
      by_cases hs1 : isSkipped v1 = true
      · have hs2 : isSkipped v2 = true := hskip ▸ hs1
        simp only [goFields, hs1, hs2, if_true]
        exact ih ws s ht
      · have hs2 : isSkipped v2 = false := by
          rw [← hskip]
          exact Bool.not_eq_true _ ▸ hs1
        simp only [goFields, hs1, Bool.false_eq_true, if_false,
          eq_self_iff_true]
        rw [hf v1 v2 s hv]
        simp only [hs2, Bool.false_eq_true, if_false]
        cases hfw : f v2 s with
        | none => rfl
        | some r =>
          simp only [Option.some_bind]
          rw [ih ws r.2 ht]

/-- The normalizer depends only on the canonical form of its input: values
equal up to object key insertion order normalize identically at every fuel
and every `seen` set. -/
theorem normVF_congr :
    ∀ (n : Nat) (v1 v2 : JVal) (s : List Nat),
      canonV v1 = canonV v2 → normVF n v1 s = normVF n v2 s := by
  intro n
  induction n with
  | zero => intros; rfl
  | succ n ih =>
    intro v1 v2 s h
    cases v1 with
    | jnull =>
      have h2 : v2 = .jnull := by cases v2 <;> simp_all [canonV]
      rw [h2]
    | jundef =>
      have h2 : v2 = .jundef := by cases v2 <;> simp_all [canonV]
      rw [h2]
    | jfun =>
      have h2 : v2 = .jfun := by cases v2 <;> simp_all [canonV]
      rw [h2]
    | jsym =>
      have h2 : v2 = .jsym := by cases v2 <;> simp_all [canonV]
      rw [h2]
    | jbool b =>
      have h2 : v2 = .jbool b := by cases v2 <;> simp_all [canonV]
      rw [h2]
    | jnum m =>
      have h2 : v2 = .jnum m := by cases v2 <;> simp_all [canonV]
      rw [h2]
    | jstr t =>
      have h2 : v2 = .jstr t := by cases v2 <;> simp_all [canonV]
      rw [h2]
    | jdate iso =>
      have h2 : v2 = .jdate iso := by cases v2 <;> simp_all [canonV]
      rw [h2]
    | jarr es1 =>
      obtain ⟨es2, rfl, hl⟩ := canonV_arr_inv h.symm
      simp only [normVF]
      rw [goArr_congr (normVF n) ih es1 es2 s hl.symm]
    | jobj i fs1 =>
      obtain ⟨fs2, rfl, hl⟩ := canonV_obj_inv h.symm
      simp only [normVF]
      by_cases hmem : i ∈ s
      · simp [hmem]
      · simp only [if_neg hmem]
        have hcfs : canonFs (sortFields fs1) = canonFs (sortFields fs2) := by
          rw [← sortFields_canonFs, ← sortFields_canonFs]
          exact hl.symm
        rw [goFields_congr (normVF n) ih (sortFields fs1) (sortFields fs2)
          (i :: s) hcfs]

/-- Claim C6: the request signature is deterministic and independent of
object key insertion order — payloads with equal canonical forms (same
keys, values and identity structure, any nested key order) sign
identically — and `undefined`-valued fields are dropped, so
`sign(e, \x7ba: undefined, b: 2\x7d)` equals `sign(e, \x7bb: 2\x7d)` and
`sign(e, \x7ba: 1, b: 2\x7d)` equals `sign(e, \x7bb: 2, a: 1\x7d)`. -/
theorem C6_signature_key_order :
    (∀ (bu pa pk : String) (v1 v2 : JVal), canonV v1 = canonV v2 →
      sign bu pa pk v1 = sign bu pa pk v2) ∧
    sign demoBaseURL "/initialize" "pk"
        (.jobj 7 [("a", .jnum 1), ("b", .jnum 2)]) =
      sign demoBaseURL "/initialize" "pk"
        (.jobj 7 [("b", .jnum 2), ("a", .jnum 1)]) ∧
    sign demoBaseURL "/initialize" "pk"
        (.jobj 5 [("a", .jundef), ("b", .jnum 2)]) =
      sign demoBaseURL "/initialize" "pk"
        (.jobj 5 [("b", .jnum 2)]) := by
  refine ⟨?_, rfl, rfl⟩
  intro bu pa pk v1 v2 h
  have hw : canonV (JVal.jobj 0
      [("baseURL", .jstr bu), ("path", .jstr pa),
       ("publicKey", .jstr pk), ("payload", v1)]) =
    canonV (JVal.jobj 0
      [("baseURL", .jstr bu), ("path", .jstr pa),
       ("publicKey", .jstr pk), ("payload", v2)]) := by
    show JVal.jobj 0
        [("baseURL", .jstr bu), ("path", .jstr pa),
         ("payload", canonV v1), ("publicKey", .jstr pk)] =
      JVal.jobj 0
        [("baseURL", .jstr bu), ("path", .jstr pa),
         ("payload", canonV v2), ("publicKey", .jstr pk)]
    rw [h]
  have hv12 : szV v1 = szV v2 := by
    have e := congrArg szV h
    rw [szV_canon, szV_canon] at e
    exact e
  have hsz : szV (JVal.jobj 0
      [("baseURL", .jstr bu), ("path", .jstr pa),
       ("publicKey", .jstr pk), ("payload", v1)]) =
    szV (JVal.jobj 0
      [("baseURL", .jstr bu), ("path", .jstr pa),
       ("publicKey", .jstr pk), ("payload", v2)]) := by
    simp [szV, szF, hv12]
  unfold sign stableSerialize jsNormalize
  rw [hsz, normVF_congr _ _ _ _ hw]

/-- Witness for C6 on two concrete key-permuted payloads. -/
theorem C6_witness :
    canonV (.jobj 3 [("x", .jnum 1), ("y", .jnum 2)]) =
      canonV (.jobj 3 [("y", .jnum 2), ("x", .jnum 1)]) ∧
    sign demoBaseURL "/initialize" "pk"
        (.jobj 3 [("x", .jnum 1), ("y", .jnum 2)]) =
      sign demoBaseURL "/initialize" "pk"
        (.jobj 3 [("y", .jnum 2), ("x", .jnum 1)]) :=
  ⟨rfl, C6_signature_key_order.1 demoBaseURL "/initialize" "pk" _ _ rfl⟩
